import Mathlib

/-!
Shallow embedding of `src/run.py`, the bootstrap script of the JanSeva-AI
repository.  The script is:

  app = create_app()                                        -- line 8
  if __name__ == '__main__':
      port = int(os.environ.get('PORT', 5000))              -- line 11
      debug_mode = os.environ.get('FLASK_ENV', 'production') == 'development'
      app.run(host='0.0.0.0', port=port, debug=debug_mode)  -- line 13

We embed the process environment as a partial map from variable names to
string values, Python's `int()` conversion on strings as a partial parsing
function, and the observable behaviour of the module body as a list of
events (building the application, reading an environment variable,
attempting to serve).  A failed `int()` conversion (Python `ValueError`)
is modelled as `Option.none`: the startup aborts before the serve call.
-/

namespace RunPy

/-- A process environment: a partial map from variable names to values,
as read by `os.environ.get`. -/
abbrev Env := String → Option String

/-- Whitespace characters stripped by Python's `int()` around a decimal
literal (ASCII subset: space, tab, lf, vt, ff, cr). -/
def isPySpace (c : Char) : Bool :=
  c == ' ' || c == '\t' || c == '\n' || c == '\x0b' || c == '\x0c' || c == '\r'

/-- Drop leading and trailing whitespace, as Python's `int()` does before
parsing a decimal literal. -/
def stripPySpace (cs : List Char) : List Char :=
  ((cs.dropWhile isPySpace).reverse.dropWhile isPySpace).reverse

/-- Accumulate the remaining decimal digits of a Python integer literal.
A single underscore may separate two digits (Python 3.6+ grouping);
anything else makes the literal invalid. -/
def pyDigitsAux : List Char → Nat → Option Nat
  | [], acc => some acc
  | '_' :: c :: cs, acc =>
      if c.isDigit then pyDigitsAux cs (acc * 10 + (c.toNat - '0'.toNat)) else none
  | c :: cs, acc =>
      if c.isDigit then pyDigitsAux cs (acc * 10 + (c.toNat - '0'.toNat)) else none

/-- Parse a non-empty run of decimal digits (with optional underscore
grouping) to its value; `none` if the run is empty or malformed. -/
def pyDigitsOf : List Char → Option Nat
  | [] => none
  | c :: cs => if c.isDigit then pyDigitsAux cs (c.toNat - '0'.toNat) else none

/-- Parse an optionally signed decimal literal, the character-level core of
Python's `int()` on strings. -/
def pyIntCore : List Char → Option Int
  | '+' :: cs => (pyDigitsOf cs).map Int.ofNat
  | '-' :: cs => (pyDigitsOf cs).map (fun n => -(Int.ofNat n : Int))
  | cs => (pyDigitsOf cs).map Int.ofNat

/-- Python's `int(s)` for a string `s`: strip surrounding whitespace, then
parse an optionally signed decimal literal.  `none` models the
`ValueError` raised on an unparsable string. -/
def pyIntOfString (s : String) : Option Int :=
  pyIntCore (stripPySpace s.data)

/-- `port = int(os.environ.get('PORT', 5000))` (line 11): when `PORT` is
unset the default `5000` is already an integer, so the conversion is the
identity; when set, the string value goes through `int()`. -/
def resolvePort (env : Env) : Option Int :=
  match env "PORT" with
  | none => some 5000
  | some s => pyIntOfString s

/-- `debug_mode = os.environ.get('FLASK_ENV', 'production') == 'development'`
(line 12). -/
def resolveDebug (env : Env) : Bool :=
  (env "FLASK_ENV").getD "production" == "development"

/-- The argument triple of the `app.run(host='0.0.0.0', port=port,
debug=debug_mode)` call on line 13. -/
structure ServeCall where
  host : String
  port : Int
  debug : Bool
deriving DecidableEq

/-- Observable events of executing the module body: the application
factory call, a read of one environment variable, and the attempt to bind
and serve. -/
inductive Event
  | buildApp
  | readEnv (name : String)
  | serve (host : String) (port : Int) (debug : Bool)
deriving DecidableEq

/-- `true` exactly on serve events. -/
def isServe : Event → Bool
  | .serve _ _ _ => true
  | _ => false

/-- `true` exactly on environment-read events. -/
def isReadEnv : Event → Bool
  | .readEnv _ => true
  | _ => false

/-- Events of the `if __name__ == '__main__':` block (lines 11-13): read
`PORT`; if its conversion fails the block aborts (ValueError), otherwise
read `FLASK_ENV` and call `app.run`. -/
def mainBlockTrace (env : Env) : List Event :=
  Event.readEnv "PORT" ::
    match resolvePort env with
    | none => []
    | some p => [Event.readEnv "FLASK_ENV", Event.serve "0.0.0.0" p (resolveDebug env)]

/-- Events of executing the whole module body.  Line 8 (`app =
create_app()`) always runs first; the guarded block runs only when the
module is the main program. -/
def moduleTrace (isMain : Bool) (env : Env) : List Event :=
  Event.buildApp :: (if isMain then mainBlockTrace env else [])

/-- Events when the script is run as the main program. -/
def mainTrace (env : Env) : List Event :=
  moduleTrace true env

/-- The serve call attempted when run as the main program, or `none` when
startup fails before reaching line 13. -/
def mainRun (env : Env) : Option ServeCall :=
  (resolvePort env).map fun p =>
    { host := "0.0.0.0", port := p, debug := resolveDebug env }

/-- `true` when no event of the trace is a serve attempt. -/
def noServe (t : List Event) : Bool :=
  t.all fun e => !isServe e

/-- The empty environment: both variables unset. -/
def envEmpty : Env := fun _ => none

/-- Environment `{PORT: "8080", FLASK_ENV: "development"}`. -/
def env8080 : Env := fun k =>
  if k = "PORT" then some "8080"
  else if k = "FLASK_ENV" then some "development"
  else none

/-- Environment with the non-numeric `PORT` value `"abc"`. -/
def envAbc : Env := fun k =>
  if k = "PORT" then some "abc" else none

/-- Environment with the negative `PORT` value `"-1"`. -/
def envNeg : Env := fun k =>
  if k = "PORT" then some "-1" else none

/-- Environment with the out-of-range `PORT` value `"99999"`. -/
def envBig : Env := fun k =>
  if k = "PORT" then some "99999" else none

/-- Environment where only an unrelated variable is set. -/
def envOther : Env := fun k =>
  if k = "OTHER" then some "x" else none

/-- `true` when no event of the trace is an environment read. -/
def noEnvRead (t : List Event) : Bool :=
  t.all fun e => !isReadEnv e

/-- C1: with `PORT` set to a string on which `int()` fails, running as the
main program aborts during startup (the resolved serve call is `none`) and
the execution trace contains no serve attempt. -/
theorem nonnumeric_port_aborts_before_serve (env : Env) (s : String)
    (hs : env "PORT" = some s) (hp : pyIntOfString s = none) :
    mainRun env = none ∧ noServe (mainTrace env) = true := by
  have hr : resolvePort env = none := by
    simp [resolvePort, hs, hp]
  constructor
  · simp [mainRun, hr]
  · simp [mainTrace, moduleTrace, mainBlockTrace, hr, noServe, isServe]

/-- C1 witness: the environment `{PORT: "abc"}` satisfies the hypotheses
and the conclusion holds there. -/
theorem nonnumeric_port_aborts_witness :
    mainRun envAbc = none ∧ noServe (mainTrace envAbc) = true :=
  nonnumeric_port_aborts_before_serve envAbc "abc" (by decide) (by decide)

/-- C2 counterexample: in the empty environment the very first event of
the main-program trace is the application-factory call, not an environment
read, so a step does precede the environment read. -/
theorem build_precedes_env_read :
    (mainTrace envEmpty).head? = some Event.buildApp ∧
    isReadEnv Event.buildApp = false ∧
    Event.readEnv "PORT" ∈ mainTrace envEmpty := by
  decide

/-- C2 amended: when run as the main program the steps occur in the order
build application (module import, line 8), read `PORT` (line 11), and then
— only when the port conversion succeeds — read `FLASK_ENV` (line 12) and
start listening (line 13); the application build precedes the environment
read. -/
theorem startup_order (env : Env) :
    ∃ t, mainTrace env = Event.buildApp :: Event.readEnv "PORT" :: t ∧
      (t = [] ∨ ∃ p, resolvePort env = some p ∧
        t = [Event.readEnv "FLASK_ENV", Event.serve "0.0.0.0" p (resolveDebug env)]) := by
  cases h : resolvePort env with
  | none =>
      exact ⟨[], by simp [mainTrace, moduleTrace, mainBlockTrace, h], Or.inl rfl⟩
  | some p =>
      exact ⟨[Event.readEnv "FLASK_ENV", Event.serve "0.0.0.0" p (resolveDebug env)],
        by simp [mainTrace, moduleTrace, mainBlockTrace, h], Or.inr ⟨p, rfl, rfl⟩⟩

/-- C3: the resolved debug flag is true exactly when `FLASK_ENV` is set
and equal to the string "development". -/
theorem debug_iff_development (env : Env) :
    resolveDebug env = true ↔ env "FLASK_ENV" = some "development" := by
  unfold resolveDebug
  cases h : env "FLASK_ENV" with
  | none => simp
  | some s => simp

/-- C4: for any string on which `int()` succeeds with value `n`, running
with `PORT` set to that string resolves a serve call on port `n`, and a
serve event on port `n` appears in the trace. -/
theorem port_string_binds_int (env : Env) (s : String) (n : Int)
    (hs : env "PORT" = some s) (hp : pyIntOfString s = some n) :
    mainRun env = some ⟨"0.0.0.0", n, resolveDebug env⟩ ∧
    Event.serve "0.0.0.0" n (resolveDebug env) ∈ mainTrace env := by
  have hr : resolvePort env = some n := by
    simp [resolvePort, hs, hp]
  constructor
  · simp [mainRun, hr]
  · simp [mainTrace, moduleTrace, mainBlockTrace, hr]

/-- C4 witness: `PORT = "8080"` parses to 8080 and the serve call uses
port 8080. -/
theorem port_string_binds_int_witness :
    mainRun env8080 = some ⟨"0.0.0.0", 8080, resolveDebug env8080⟩ ∧
    Event.serve "0.0.0.0" 8080 (resolveDebug env8080) ∈ mainTrace env8080 :=
  port_string_binds_int env8080 "8080" 8080 (by decide) (by decide)

/-- C5: when `PORT` is unset the resolved port is exactly 5000. -/
theorem unset_port_defaults_5000 (env : Env) (hs : env "PORT" = none) :
    resolvePort env = some 5000 ∧
    mainRun env = some ⟨"0.0.0.0", 5000, resolveDebug env⟩ := by
  have hr : resolvePort env = some 5000 := by
    simp [resolvePort, hs]
  exact ⟨hr, by simp [mainRun, hr]⟩

/-- C5 witness: the empty environment resolves port 5000. -/
theorem unset_port_defaults_5000_witness :
    resolvePort envEmpty = some 5000 ∧
    mainRun envEmpty = some ⟨"0.0.0.0", 5000, resolveDebug envEmpty⟩ :=
  unset_port_defaults_5000 envEmpty rfl

/-- C6: for every environment, any resolved serve call and any serve event
in the trace uses host "0.0.0.0"; the host is a fixed constant. -/
theorem host_always_all_interfaces (env : Env) :
    (∀ sc, mainRun env = some sc → sc.host = "0.0.0.0") ∧
    (∀ h p d, Event.serve h p d ∈ mainTrace env → h = "0.0.0.0") := by
  constructor
  · intro sc hsc
    cases hr : resolvePort env with
    | none => simp [mainRun, hr] at hsc
    | some p =>
        simp [mainRun, hr] at hsc
        rw [← hsc]
  · intro h p d hmem
    cases hr : resolvePort env with
    | none =>
        simp [mainTrace, moduleTrace, mainBlockTrace, hr] at hmem
    | some q =>
        simp [mainTrace, moduleTrace, mainBlockTrace, hr] at hmem
        exact hmem.1

/-- C6 witness: at the environment `{PORT: "8080", FLASK_ENV:
"development"}` the resolved serve call has host "0.0.0.0". -/
theorem host_always_all_interfaces_witness :
    ServeCall.host ⟨"0.0.0.0", 8080, true⟩ = "0.0.0.0" :=
  (host_always_all_interfaces env8080).1 ⟨"0.0.0.0", 8080, true⟩ (by decide)

/-- C7: when imported rather than run as the main program, the module body
performs exactly the application-factory call: no environment variable is
read and no serve is attempted. -/
theorem import_only_builds_app (env : Env) :
    moduleTrace false env = [Event.buildApp] ∧
    Event.buildApp ∈ moduleTrace false env ∧
    noServe (moduleTrace false env) = true ∧
    noEnvRead (moduleTrace false env) = true := by
  refine ⟨rfl, ?_, rfl, rfl⟩
  simp [moduleTrace]

/-- C8: concrete scenarios — `{PORT: "8080", FLASK_ENV: "development"}`
serves on 0.0.0.0:8080 with debug on; the empty environment serves on
0.0.0.0:5000 with debug off. -/
theorem concrete_scenarios :
    mainRun env8080 = some ⟨"0.0.0.0", 8080, true⟩ ∧
    Event.serve "0.0.0.0" 8080 true ∈ mainTrace env8080 ∧
    mainRun envEmpty = some ⟨"0.0.0.0", 5000, false⟩ ∧
    Event.serve "0.0.0.0" 5000 false ∈ mainTrace envEmpty := by
  decide

/-- C9: configuration resolution is deterministic and depends only on the
`PORT` and `FLASK_ENV` variables: two environments agreeing on those two
keys produce the same resolved serve call and the same trace. -/
theorem config_deterministic (env1 env2 : Env)
    (hp : env1 "PORT" = env2 "PORT")
    (hf : env1 "FLASK_ENV" = env2 "FLASK_ENV") :
    mainRun env1 = mainRun env2 ∧ mainTrace env1 = mainTrace env2 := by
  have hr : resolvePort env1 = resolvePort env2 := by
    simp [resolvePort, hp]
  have hd : resolveDebug env1 = resolveDebug env2 := by
    simp [resolveDebug, hf]
  constructor
  · simp [mainRun, hr, hd]
  · simp [mainTrace, moduleTrace, mainBlockTrace, hr, hd]

/-- C9 witness: the empty environment and one that sets only an unrelated
variable `OTHER` agree on `PORT` and `FLASK_ENV`, hence resolve
identically. -/
theorem config_deterministic_witness :
    mainRun envEmpty = mainRun envOther ∧ mainTrace envEmpty = mainTrace envOther :=
  config_deterministic envEmpty envOther (by decide) (by decide)

/-- C10: no range validation on the parsed port — with `PORT` set to a
string, resolution fails exactly when `int()` fails, and any parsed value
(negative or above 65535 included) is passed unchanged to the serve
call. -/
theorem no_port_range_validation (env : Env) (s : String)
    (hs : env "PORT" = some s) :
    (mainRun env = none ↔ pyIntOfString s = none) ∧
    (∀ n : Int, pyIntOfString s = some n →
      mainRun env = some ⟨"0.0.0.0", n, resolveDebug env⟩) := by
  constructor
  · cases hp : pyIntOfString s with
    | none => simp [mainRun, resolvePort, hs, hp]
    | some n => simp [mainRun, resolvePort, hs, hp]
  · intro n hp
    simp [mainRun, resolvePort, hs, hp]

/-- C10 witness: `PORT = "-1"` and `PORT = "99999"` both resolve, passing
-1 and 99999 unchanged to the serve call. -/
theorem no_port_range_validation_witness :
    mainRun envNeg = some ⟨"0.0.0.0", -1, false⟩ ∧
    mainRun envBig = some ⟨"0.0.0.0", 99999, false⟩ := by
  have h1 := (no_port_range_validation envNeg "-1" (by decide)).2 (-1) (by decide)
  have h2 := (no_port_range_validation envBig "99999" (by decide)).2 99999 (by decide)
  exact ⟨h1.trans (by decide), h2.trans (by decide)⟩

end RunPy
